import Mathlib

/-!
Shallow embedding of the PharmaGuard pharmacogenomic engine
(`backend/app/engine.py`) and proofs about it.

Python dictionaries are modelled as insertion-ordered association lists
(`List (String × α)`); `dict.get(k, default)` becomes `lookup` followed by
`Option.getD`.  Python floats in the engine only ever carry small decimal
values produced by literal tables, so they are modelled as exact rationals
(`ℚ`); `round(x, n)` is modelled as round-half-to-even at `n` decimals,
which is Python's rounding mode.  JSON rule/profile documents are modelled
as structures with the fields the engine reads; the engine's `.get` chains
with defaults are reproduced at the sites where the code applies them.
-/

namespace PWHack

/-- Association-list lookup, modelling Python `dict[k]` / `dict.get(k)`
for insertion-ordered string-keyed dicts. -/
def lookup {α : Type} (l : List (String × α)) (k : String) : Option α :=
  (l.find? (fun p => p.1 == k)).map (fun p => p.2)

/-- Keys of an association list, in order (Python `dict.keys()`). -/
def keysOf {α : Type} (l : List (String × α)) : List String :=
  l.map Prod.fst

/-- Python `str.upper()` restricted to ASCII, which is all the engine's
drug names use. -/
def strUpper (s : String) : String :=
  ⟨s.data.map Char.toUpper⟩

/-- Round-half-to-even to an integer (Python's `round` mode on exact values). -/
def roundHalfEven (q : ℚ) : ℤ :=
  let f := ⌊q⌋
  let r := q - (f : ℚ)
  if r < 1/2 then f
  else if 1/2 < r then f + 1
  else if f % 2 = 0 then f else f + 1

/-- Python `round(q, 2)` on exact rationals. -/
def round2 (q : ℚ) : ℚ := (roundHalfEven (q * 100) : ℚ) / 100

/-- Python `round(q, 3)` on exact rationals. -/
def round3 (q : ℚ) : ℚ := (roundHalfEven (q * 1000) : ℚ) / 1000

/-- A detected variant as the engine reads it (`engine.py` lines 136-147):
`rsid`, `impact`, optional `genotype_alleles` pair, optional star alleles. -/
structure Variant where
  rsid : String
  impact : String
  genotype_alleles : Option (String × String)
  star_1 : Option String
  star_2 : Option String
deriving DecidableEq

/-- A per-gene call from the genomic profile, with the fields the engine
reads (`engine.py` lines 108-112). -/
structure GeneCall where
  phenotype : String
  diplotype : String
  activity_score : ℚ
  detected_variants : List Variant
deriving DecidableEq

/-- Defaults the engine applies when the primary gene is absent from the
profile (`engine.py` lines 109-112): NM, *1/*1, activity 2.0, no variants. -/
def defaultGeneCall : GeneCall :=
  { phenotype := "NM", diplotype := "*1/*1", activity_score := 2, detected_variants := [] }

/-- One phenotype rule from `cpic_rules.json` (`{risk_label, severity,
recommendation}`). -/
structure PhenoRule where
  risk_label : String
  severity : String
  recommendation : String
deriving DecidableEq

/-- One drug entry from `cpic_rules.json`: primary gene plus phenotype rules. -/
structure DrugRule where
  primary_gene : String
  phenotype_rules : List (String × PhenoRule)
deriving DecidableEq

/-- The loaded CPIC rule table, keyed by upper-cased drug name. -/
abbrev RuleTable := List (String × DrugRule)

/-- A genomic profile, keyed by gene symbol. -/
abbrev GenomicProfile := List (String × GeneCall)

/-- `SEVERITY_WEIGHTS` table (`engine.py` lines 58-64). -/
def SEVERITY_WEIGHTS : List (String × ℚ) :=
  [("critical", 4), ("high", 3), ("moderate", 2), ("low", 1), ("none", 0)]

/-- `SEVERITY_WEIGHTS.get(severity, 0.0)` (`engine.py` line 208). -/
def severityWeight (s : String) : ℚ :=
  (lookup SEVERITY_WEIGHTS s).getD 0

/-- `CONFIDENCE_LEVELS` table (`engine.py` lines 66-72). -/
def CONFIDENCE_LEVELS : List (String × ℚ) :=
  [("critical", 95/100), ("high", 90/100), ("moderate", 85/100),
   ("low", 70/100), ("none", 95/100)]

/-- `CONFIDENCE_LEVELS.get(severity, 0.75)` (`engine.py` line 132). -/
def confidenceFor (s : String) : ℚ :=
  (lookup CONFIDENCE_LEVELS s).getD (75/100)

/-- `EVIDENCE_LEVELS` table (`engine.py` lines 74-80). -/
def EVIDENCE_LEVELS : List (String × String) :=
  [("critical", "1A — Strong CPIC recommendation"),
   ("high", "1A — Strong CPIC recommendation"),
   ("moderate", "1B — Moderate CPIC recommendation"),
   ("low", "2A — Weak or limited evidence"),
   ("none", "1A — Standard dosing supported")]

/-- `EVIDENCE_LEVELS.get(severity, "Unknown")` (`engine.py` line 133). -/
def evidenceFor (s : String) : String :=
  (lookup EVIDENCE_LEVELS s).getD "Unknown"

/-- Insert a string into a sorted list (helper for `sortStrings`). -/
def insertStr (x : String) : List String → List String
  | [] => [x]
  | y :: ys => if x ≤ y then x :: y :: ys else y :: insertStr x ys

/-- Lexical sort, modelling Python `sorted` on dict keys. -/
def sortStrings : List String → List String
  | [] => []
  | x :: xs => insertStr x (sortStrings xs)

/-- `get_available_drugs` (`engine.py` lines 45-48): sorted rule-table keys. -/
def get_available_drugs (rules : RuleTable) : List String :=
  sortStrings (keysOf rules)

/-- Resolve the phenotype rule: exact match, else the drug's "NM" rule,
else the synthesized generic rule (`engine.py` lines 115-126). -/
def resolveRule (phenotype_rules : List (String × PhenoRule))
    (phenotype drug : String) : PhenoRule :=
  match lookup phenotype_rules phenotype with
  | some r => r
  | none =>
    match lookup phenotype_rules "NM" with
    | some r => r
    | none =>
      { risk_label := "Unknown"
        severity := "low"
        recommendation :=
          "No specific CPIC guideline found for " ++ phenotype ++
          " phenotype with " ++ drug ++ ". Exercise clinical judgment." }

/-- A formatted variant in the output (`engine.py` lines 136-147). -/
structure FormattedVariant where
  rsid : String
  impact : String
  genotype : String
  star_allele_1 : Option String
  star_allele_2 : Option String
deriving DecidableEq

/-- Variant output formatting (`engine.py` lines 137-147). -/
def formatVariant (v : Variant) : FormattedVariant :=
  { rsid := v.rsid
    impact := v.impact
    genotype :=
      match v.genotype_alleles with
      | some (a, b) => a ++ "/" ++ b
      | none => "unknown"
    star_allele_1 := v.star_1
    star_allele_2 := v.star_2 }

/-- The `risk_assessment` block of a successful assessment. -/
structure RiskAssessmentOut where
  risk_label : String
  severity : String
  confidence : ℚ
  evidence_level : String
deriving DecidableEq

/-- The `pharmacogenomic_profile` block of a successful assessment. -/
structure PGxProfileOut where
  primary_gene : String
  diplotype : String
  phenotype : String
  activity_score : ℚ
  detected_variants : List FormattedVariant
  variants_count : ℕ
deriving DecidableEq

/-- The `clinical_recommendation` block of a successful assessment. -/
structure ClinicalRecOut where
  recommendation : String
  guideline_source : String
  drug : String
  gene : String
deriving DecidableEq

/-- A successful risk assessment (`engine.py` lines 149-171). -/
structure Assessment where
  drug : String
  risk_assessment : RiskAssessmentOut
  pharmacogenomic_profile : PGxProfileOut
  clinical_recommendation : ClinicalRecOut
deriving DecidableEq

/-- The structured not-found payload (`engine.py` lines 98-101). -/
structure NotFoundPayload where
  error : String
  available_drugs : List String
deriving DecidableEq

/-- Result of `assess_drug_risk`: the returned dict either carries an
`error` key or is a full assessment. -/
inductive AssessResult where
  | err (e : NotFoundPayload)
  | ok (a : Assessment)
deriving DecidableEq

/-- `assess_drug_risk` (`engine.py` lines 83-171), with the rule table
passed explicitly in place of the module-level cache. -/
def assess_drug_risk (rules : RuleTable) (drug : String)
    (genomic_profile : GenomicProfile) : AssessResult :=
  let drug_upper := strUpper drug
  match lookup rules drug_upper with
  | none =>
    .err { error := "Drug '" ++ drug ++ "' not found in CPIC rules."
           available_drugs := get_available_drugs rules }
  | some drug_rules =>
    let gene_profile := (lookup genomic_profile drug_rules.primary_gene).getD defaultGeneCall
    let rule := resolveRule drug_rules.phenotype_rules gene_profile.phenotype drug
    let confidence := confidenceFor rule.severity
    let variant_list := gene_profile.detected_variants.map formatVariant
    .ok
      { drug := drug_upper
        risk_assessment :=
          { risk_label := rule.risk_label
            severity := rule.severity
            confidence := confidence
            evidence_level := evidenceFor rule.severity }
        pharmacogenomic_profile :=
          { primary_gene := drug_rules.primary_gene
            diplotype := gene_profile.diplotype
            phenotype := gene_profile.phenotype
            activity_score := gene_profile.activity_score
            detected_variants := variant_list
            variants_count := variant_list.length }
        clinical_recommendation :=
          { recommendation := rule.recommendation
            guideline_source := "CPIC"
            drug := drug_upper
            gene := drug_rules.primary_gene } }

/-- One entry of a gene's `affected_drugs` list (`engine.py` lines 218-223). -/
structure AffectedDrug where
  drug : String
  risk_label : String
  severity : String
  weight : ℚ
deriving DecidableEq

/-- A per-gene burden record (`engine.py` lines 210-216). -/
structure GeneBurden where
  phenotype : String
  activity_score : ℚ
  max_severity_weight : ℚ
  affected_drugs : List AffectedDrug
deriving DecidableEq

/-- One high-risk (drug, gene) pair (`engine.py` lines 228-235). -/
structure HighRiskPair where
  drug : String
  gene : String
  phenotype : String
  risk_label : String
  severity : String
deriving DecidableEq

/-- Update the value stored under key `k` (Python in-place mutation of the
dict entry; keys built by the PBS loop are unique, see the loop guard). -/
def updateEntry (l : List (String × GeneBurden)) (k : String)
    (f : GeneBurden → GeneBurden) : List (String × GeneBurden) :=
  l.map (fun p => if p.1 == k then (p.1, f p.2) else p)

/-- Mutation applied to a gene's burden record for one evaluated drug
(`engine.py` lines 218-226): append the affected drug, raise the max. -/
def bumpGene (gb : GeneBurden) (drug : String) (pr : PhenoRule) (w : ℚ) : GeneBurden :=
  { gb with
    affected_drugs :=
      gb.affected_drugs ++
        [{ drug := drug, risk_label := pr.risk_label, severity := pr.severity, weight := w }]
    max_severity_weight :=
      if w > gb.max_severity_weight then w else gb.max_severity_weight }

/-- Loop body of `compute_pharmacogenomic_burden_score`
(`engine.py` lines 194-235), acting on (gene_burdens, high_risk_pairs). -/
def pbsStep (rules : RuleTable) (genomic_profile : GenomicProfile)
    (st : List (String × GeneBurden) × List HighRiskPair) (drug : String) :
    List (String × GeneBurden) × List HighRiskPair :=
  match lookup rules drug with
  | none => st
  | some drug_rules =>
    let primary_gene := drug_rules.primary_gene
    let gene_profile := (lookup genomic_profile primary_gene).getD defaultGeneCall
    match lookup drug_rules.phenotype_rules gene_profile.phenotype with
    | none => st
    | some pheno_rule =>
      let severity := pheno_rule.severity
      let weight := severityWeight severity
      let gb0 :=
        if (lookup st.1 primary_gene).isSome then st.1
        else
          st.1 ++
            [(primary_gene,
              { phenotype := gene_profile.phenotype
                activity_score := gene_profile.activity_score
                max_severity_weight := 0
                affected_drugs := [] })]
      let gb1 := updateEntry gb0 primary_gene (fun g => bumpGene g drug pheno_rule weight)
      let hr1 :=
        if severity = "critical" ∨ severity = "high" then
          st.2 ++
            [{ drug := drug
               gene := primary_gene
               phenotype := gene_profile.phenotype
               risk_label := pheno_rule.risk_label
               severity := severity }]
        else st.2
      (gb1, hr1)

/-- `max(SEVERITY_WEIGHTS.values())` (`engine.py` line 239). -/
def maxSeverityWeight : ℚ :=
  (SEVERITY_WEIGHTS.map Prod.snd).foldl max 0

/-- Risk-tier thresholds (`engine.py` lines 243-252). -/
def riskTier (total_pbs : ℚ) : String :=
  if total_pbs ≥ 12 then "CRITICAL"
  else if total_pbs ≥ 8 then "HIGH"
  else if total_pbs ≥ 4 then "MODERATE"
  else if total_pbs > 0 then "LOW"
  else "MINIMAL"

/-- The burden report (`engine.py` lines 254-264). -/
structure BurdenReport where
  pharmacogenomic_burden_score : ℚ
  normalized_pbs : ℚ
  risk_tier : String
  gene_burdens : List (String × GeneBurden)
  high_risk_pairs : List HighRiskPair
  total_genes_affected : ℕ
  drugs_analyzed : ℕ
deriving DecidableEq

/-- `compute_pharmacogenomic_burden_score` (`engine.py` lines 174-264);
`none` for the drug list means "all drugs in the rule table". -/
def compute_pharmacogenomic_burden_score (rules : RuleTable)
    (genomic_profile : GenomicProfile) (drugs? : Option (List String)) : BurdenReport :=
  let drugs :=
    match drugs? with
    | none => keysOf rules
    | some ds => ds.map strUpper
  let st := drugs.foldl (pbsStep rules genomic_profile) ([], [])
  let gene_burdens := st.1
  let total_pbs : ℚ := (gene_burdens.map (fun p => p.2.max_severity_weight)).sum
  let max_possible : ℚ :=
    if gene_burdens.isEmpty then 1 else (gene_burdens.length : ℚ) * maxSeverityWeight
  let normalized_pbs := if max_possible > 0 then round3 (total_pbs / max_possible) else 0
  { pharmacogenomic_burden_score := round2 total_pbs
    normalized_pbs := normalized_pbs
    risk_tier := riskTier total_pbs
    gene_burdens := gene_burdens
    high_risk_pairs := st.2
    total_genes_affected :=
      (gene_burdens.filter (fun p => p.2.max_severity_weight > 0)).length
    drugs_analyzed := drugs.length }

/-- The fixed phenotype→activity map of the simulator (`engine.py` lines 296-299). -/
def phenotypeActivity (target : String) : ℚ :=
  (lookup [("PM", 0), ("IM", 1/2), ("NM", 2), ("RM", 5/2), ("URM", 3)] target).getD 2

/-- Derived profile built by `counterfactual_simulation`
(`engine.py` lines 287-312).  `starDefs` stands for the external
`STAR_ALLELE_DEFINITIONS` table of `app/parser.py` (gene → default star
allele); the engine reads it with defaults `{}` then `"*1"`. -/
def counterfactual_profile (starDefs : List (String × String))
    (primary_gene target_phenotype : String)
    (genomic_profile : GenomicProfile) : GenomicProfile :=
  genomic_profile.map (fun p =>
    if p.1 == primary_gene then
      let default_star := (lookup starDefs p.1).getD "*1"
      (p.1,
        { p.2 with
          phenotype := target_phenotype
          activity_score := phenotypeActivity target_phenotype
          diplotype :=
            if target_phenotype = "NM" then default_star ++ "/" ++ default_star
            else p.2.diplotype })
    else p)

/-- `risk_assessment.risk_label` read via the defensive `.get` chain of
`engine.py` lines 332-335 (absent on the error payload). -/
def riskLabelOf : AssessResult → Option String
  | .err _ => none
  | .ok a => some a.risk_assessment.risk_label

/-- `pharmacogenomic_profile.phenotype` read via the `.get` chain of
`engine.py` line 321 (absent on the error payload). -/
def phenotypeOf : AssessResult → Option String
  | .err _ => none
  | .ok a => some a.pharmacogenomic_profile.phenotype

/-- `clinical_recommendation.recommendation` read via the `.get` chain of
`engine.py` lines 323 and 328-330. -/
def recommendationOf : AssessResult → Option String
  | .err _ => none
  | .ok a => some a.clinical_recommendation.recommendation

/-- `risk_assessment` block, as read defensively at lines 322 and 327. -/
def riskBlockOf : AssessResult → Option RiskAssessmentOut
  | .err _ => none
  | .ok a => some a.risk_assessment

/-- The counterfactual report (`engine.py` lines 317-336). -/
structure CFReport where
  drug : String
  primary_gene : String
  actual_phenotype : Option String
  actual_risk_assessment : Option RiskAssessmentOut
  actual_recommendation : Option String
  simulated_phenotype : String
  counterfactual_risk_assessment : Option RiskAssessmentOut
  counterfactual_recommendation : Option String
  risk_changed : Bool
deriving DecidableEq

/-- Result of `counterfactual_simulation`: error dict or report. -/
inductive CFResult where
  | err (msg : String)
  | ok (r : CFReport)
deriving DecidableEq

/-- `counterfactual_simulation` (`engine.py` lines 267-336). -/
def counterfactual_simulation (rules : RuleTable)
    (starDefs : List (String × String)) (drug : String)
    (genomic_profile : GenomicProfile) (target_phenotype : String) : CFResult :=
  let drug_upper := strUpper drug
  match lookup rules drug_upper with
  | none => .err ("Drug '" ++ drug ++ "' not found.")
  | some drug_rules =>
    let primary_gene := drug_rules.primary_gene
    let actual := assess_drug_risk rules drug genomic_profile
    let cf_profile := counterfactual_profile starDefs primary_gene target_phenotype genomic_profile
    let counterfactual := assess_drug_risk rules drug cf_profile
    .ok
      { drug := drug_upper
        primary_gene := primary_gene
        actual_phenotype := phenotypeOf actual
        actual_risk_assessment := riskBlockOf actual
        actual_recommendation := recommendationOf actual
        simulated_phenotype := target_phenotype
        counterfactual_risk_assessment := riskBlockOf counterfactual
        counterfactual_recommendation := recommendationOf counterfactual
        risk_changed := riskLabelOf actual != riskLabelOf counterfactual }

/-- Python dict assignment `m[k] = v`: update in place if the key exists
(keeping its position), else append. -/
def pyDictInsert {α : Type} : List (String × α) → String → α → List (String × α)
  | [], k, v => [(k, v)]
  | (k', v') :: rest, k, v =>
    if k' == k then (k, v) :: rest else (k', v') :: pyDictInsert rest k v

/-- The batch report (`engine.py` lines 359-363). -/
structure BatchReport where
  drug_assessments : List (String × AssessResult)
  burden_score : BurdenReport
  total_drugs_assessed : ℕ
deriving DecidableEq

/-- `batch_drug_assessment` (`engine.py` lines 339-363); `none` for the
drug list means "all drugs in the rule table". -/
def batch_drug_assessment (rules : RuleTable) (genomic_profile : GenomicProfile)
    (drugs? : Option (List String)) : BatchReport :=
  let drugs :=
    match drugs? with
    | none => keysOf rules
    | some ds => ds.map strUpper
  let results :=
    drugs.foldl
      (fun m d => pyDictInsert m d (assess_drug_risk rules d genomic_profile)) []
  let pbs := compute_pharmacogenomic_burden_score rules genomic_profile (some drugs)
  { drug_assessments := results
    burden_score := pbs
    total_drugs_assessed := results.length }

/-- Whether a batch entry is an error payload (carries the `error` key). -/
def isErrResult : AssessResult → Bool
  | .err _ => true
  | .ok _ => false

/-- Confidence of a successful assessment, absent on the error payload. -/
def confidenceOf (r : AssessResult) : Option ℚ :=
  (riskBlockOf r).map (fun b => b.confidence)

/-- The successful entries of a batch report. -/
def batchResults (b : BatchReport) : List (String × AssessResult) :=
  b.drug_assessments.filter (fun p => !(isErrResult p.2))

/-- The error entries of a batch report. -/
def batchErrors (b : BatchReport) : List (String × AssessResult) :=
  b.drug_assessments.filter (fun p => isErrResult p.2)

/-- `foldl max 0`: the maximum of a list of nonnegative rationals. -/
def listMax0 (l : List ℚ) : ℚ :=
  l.foldl max 0

/-- Invariant of the PBS gene-burden accumulator: every gene's
`max_severity_weight` is a natural number equal to the running maximum of
the severity weights of its `affected_drugs`, and every recorded affected
drug carries the weight of its own severity. -/
def GBInv (l : List (String × GeneBurden)) : Prop :=
  ∀ p ∈ l,
    (∃ n : ℕ, p.2.max_severity_weight = (n : ℚ)) ∧
    p.2.max_severity_weight =
      listMax0 (p.2.affected_drugs.map (fun ad => severityWeight ad.severity)) ∧
    ∀ ad ∈ p.2.affected_drugs, ad.weight = severityWeight ad.severity

/-! ### Concrete fixtures used by counterexamples and witnesses -/

/-- A one-drug rule entry: WARFARIN acting through CYP2C9 with a single
"NM" rule of severity "moderate". -/
def warfarinRule : DrugRule :=
  { primary_gene := "CYP2C9"
    phenotype_rules :=
      [("NM", { risk_label := "Normal", severity := "moderate",
                recommendation := "Standard dosing." })] }

/-- A rule table holding only `warfarinRule`. -/
def exRules : RuleTable := [("WARFARIN", warfarinRule)]

/-- A profile with a CYP2C9 call: phenotype NM, diplotype *1/*1, activity
score 2.0, zero detected variants. -/
def exProfile : GenomicProfile :=
  [("CYP2C9", { phenotype := "NM", diplotype := "*1/*1", activity_score := 2,
                detected_variants := [] })]

/-- The assessment the engine produces for WARFARIN on `exProfile`. -/
def exAssessment : Assessment :=
  { drug := "WARFARIN"
    risk_assessment :=
      { risk_label := "Normal", severity := "moderate", confidence := 85/100,
        evidence_level := "1B — Moderate CPIC recommendation" }
    pharmacogenomic_profile :=
      { primary_gene := "CYP2C9", diplotype := "*1/*1", phenotype := "NM",
        activity_score := 2, detected_variants := [], variants_count := 0 }
    clinical_recommendation :=
      { recommendation := "Standard dosing.", guideline_source := "CPIC",
        drug := "WARFARIN", gene := "CYP2C9" } }

/-- Two drugs on two distinct genes, severities "high" and "none": a gene
with zero burden alongside a gene with burden 3. -/
def exRulesTwoGenes : RuleTable :=
  [("DRUGA", { primary_gene := "G1",
               phenotype_rules :=
                 [("NM", { risk_label := "High risk", severity := "high",
                           recommendation := "r1" })] }),
   ("DRUGB", { primary_gene := "G2",
               phenotype_rules :=
                 [("NM", { risk_label := "No risk", severity := "none",
                           recommendation := "r2" })] })]

/-- Two drugs sharing the gene G1, one severity "high", one "low". -/
def exRulesSharedGene : RuleTable :=
  [("DRUGA", { primary_gene := "G1",
               phenotype_rules :=
                 [("NM", { risk_label := "High risk", severity := "high",
                           recommendation := "r1" })] }),
   ("DRUGB", { primary_gene := "G1",
               phenotype_rules :=
                 [("NM", { risk_label := "Low risk", severity := "low",
                           recommendation := "r2" })] })]

/-- Twenty-one distinct drug names: one more than the spec's batch limit. -/
def drugs21 : List String :=
  ["D1", "D2", "D3", "D4", "D5", "D6", "D7", "D8", "D9", "D10", "D11",
   "D12", "D13", "D14", "D15", "D16", "D17", "D18", "D19", "D20", "D21"]

/-- The counterfactual report for WARFARIN on the empty profile with
target phenotype "NM". -/
def exCFReport : CFReport :=
  { drug := "WARFARIN"
    primary_gene := "CYP2C9"
    actual_phenotype := some "NM"
    actual_risk_assessment :=
      some { risk_label := "Normal", severity := "moderate", confidence := 85/100,
             evidence_level := "1B — Moderate CPIC recommendation" }
    actual_recommendation := some "Standard dosing."
    simulated_phenotype := "NM"
    counterfactual_risk_assessment :=
      some { risk_label := "Normal", severity := "moderate", confidence := 85/100,
             evidence_level := "1B — Moderate CPIC recommendation" }
    counterfactual_recommendation := some "Standard dosing."
    risk_changed := false }

/-! ### Helper lemmas -/

lemma mem_keysOf {α : Type} {l : List (String × α)} {k : String} :
    k ∈ keysOf l ↔ ∃ v, (k, v) ∈ l := by
  constructor
  · intro h
    rcases List.mem_map.mp h with ⟨⟨a, b⟩, hm, hk⟩
    exact ⟨b, by simpa [← hk] using hm⟩
  · rintro ⟨v, hv⟩
    exact List.mem_map.mpr ⟨(k, v), hv, rfl⟩

lemma lookup_eq_none_iff {α : Type} {l : List (String × α)} {k : String} :
    lookup l k = none ↔ k ∉ keysOf l := by
  unfold lookup
  rw [Option.map_eq_none', List.find?_eq_none]
  constructor
  · intro h hk
    rcases mem_keysOf.mp hk with ⟨v, hv⟩
    have hkv := h (k, v) hv
    simp at hkv
  · intro h p hp
    intro hpk
    have hpk' : p.1 = k := by simpa using hpk
    refine h (mem_keysOf.mpr ⟨p.2, ?_⟩)
    rw [← hpk']
    simpa using hp

lemma mem_insertStr {x y : String} {l : List String} :
    y ∈ insertStr x l ↔ y = x ∨ y ∈ l := by
  induction l with
  | nil => simp [insertStr]
  | cons a as ih =>
    simp only [insertStr]
    split
    · simp
    · simp [ih]
      tauto

lemma mem_sortStrings {x : String} {l : List String} :
    x ∈ sortStrings l ↔ x ∈ l := by
  induction l with
  | nil => simp [sortStrings]
  | cons a as ih => simp [sortStrings, mem_insertStr, ih]

lemma mem_keysOf_pyDictInsert {α : Type} {m : List (String × α)} {k a : String} {v : α} :
    a ∈ keysOf (pyDictInsert m k v) ↔ a ∈ keysOf m ∨ a = k := by
  induction m with
  | nil => simp [pyDictInsert, keysOf]
  | cons p rest ih =>
    obtain ⟨k', v'⟩ := p
    by_cases h : k' = k
    · subst h
      simp [pyDictInsert, keysOf]
      tauto
    · simp only [pyDictInsert, beq_eq_false_iff_ne, ne_eq, h, if_neg,
        beq_iff_eq, if_false]
      simp [keysOf] at ih ⊢
      rw [ih]
      tauto

lemma mem_pyDictInsert {α : Type} {m : List (String × α)} {k : String} {v : α}
    {p : String × α} (hp : p ∈ pyDictInsert m k v) : p ∈ m ∨ p = (k, v) := by
  induction m with
  | nil => simpa [pyDictInsert] using hp
  | cons q rest ih =>
    by_cases h : q.1 = k
    · rw [show q = (q.1, q.2) from rfl] at hp
      simp only [pyDictInsert, h, beq_self_eq_true, if_true] at hp
      rcases List.mem_cons.mp hp with h1 | h1
      · right; exact h1
      · left; exact List.mem_cons_of_mem _ h1
    · rw [show q = (q.1, q.2) from rfl] at hp
      simp only [pyDictInsert, beq_iff_eq, h, if_false] at hp
      rcases List.mem_cons.mp hp with h1 | h1
      · left; rw [h1]; exact List.mem_cons_self _ _
      · rcases ih h1 with h2 | h2
        · left; exact List.mem_cons_of_mem _ h2
        · right; exact h2

lemma nodup_keysOf_pyDictInsert {α : Type} {m : List (String × α)} {k : String}
    {v : α} (h : (keysOf m).Nodup) : (keysOf (pyDictInsert m k v)).Nodup := by
  induction m with
  | nil => simp [pyDictInsert, keysOf]
  | cons p rest ih =>
    obtain ⟨k', v'⟩ := p
    simp only [keysOf, List.map_cons, List.nodup_cons] at h
    by_cases hk : k' = k
    · subst hk
      simp only [pyDictInsert, beq_self_eq_true, if_true]
      simp only [keysOf, List.map_cons, List.nodup_cons]
      exact ⟨h.1, h.2⟩
    · simp only [pyDictInsert, beq_iff_eq, hk, if_false]
      simp only [keysOf, List.map_cons, List.nodup_cons] at ih ⊢
      refine ⟨?_, ih h.2⟩
      intro hmem
      rcases (mem_keysOf_pyDictInsert (m := rest) (k := k) (a := k') (v := v)).mp
          (by simpa [keysOf] using hmem) with h1 | h1
      · exact h.1 (by simpa [keysOf] using h1)
      · exact hk h1

lemma eq_of_mem_of_nodup_keys {α : Type} {l : List (String × α)}
    (h : (keysOf l).Nodup) {k : String} {a b : α}
    (ha : (k, a) ∈ l) (hb : (k, b) ∈ l) : a = b := by
  induction l with
  | nil => cases ha
  | cons p rest ih =>
    simp only [keysOf, List.map_cons, List.nodup_cons] at h
    rcases List.mem_cons.mp ha with h1 | h1 <;> rcases List.mem_cons.mp hb with h2 | h2
    · rw [← h1] at h2
      exact congrArg Prod.snd h2.symm
    · exfalso
      apply h.1
      rw [← h1]
      exact mem_keysOf.mpr ⟨b, h2⟩
    · exfalso
      apply h.1
      rw [← h2]
      exact mem_keysOf.mpr ⟨a, h1⟩
    · exact ih h.2 h1 h2

lemma mem_keysOf_batchFold (f : String → AssessResult) (ds : List String)
    (m : List (String × AssessResult)) (a : String) :
    a ∈ keysOf (ds.foldl (fun acc d => pyDictInsert acc d (f d)) m) ↔
      a ∈ keysOf m ∨ a ∈ ds := by
  induction ds generalizing m with
  | nil => simp
  | cons d rest ih =>
    simp only [List.foldl_cons, ih, mem_keysOf_pyDictInsert, List.mem_cons]
    tauto

lemma nodup_keysOf_batchFold (f : String → AssessResult) (ds : List String)
    (m : List (String × AssessResult)) (hm : (keysOf m).Nodup) :
    (keysOf (ds.foldl (fun acc d => pyDictInsert acc d (f d)) m)).Nodup := by
  induction ds generalizing m with
  | nil => exact hm
  | cons d rest ih => exact ih _ (nodup_keysOf_pyDictInsert hm)

lemma val_batchFold (f : String → AssessResult) (ds : List String)
    (m : List (String × AssessResult)) (hm : ∀ p ∈ m, p.2 = f p.1) :
    ∀ p ∈ ds.foldl (fun acc d => pyDictInsert acc d (f d)) m, p.2 = f p.1 := by
  induction ds generalizing m with
  | nil => exact hm
  | cons d rest ih =>
    intro p hp
    refine ih _ ?_ p hp
    intro q hq
    rcases mem_pyDictInsert hq with h | h
    · exact hm q h
    · rw [h]

lemma assess_eq_err (rules : RuleTable) (drug : String) (profile : GenomicProfile)
    (h : lookup rules (strUpper drug) = none) :
    assess_drug_risk rules drug profile =
      .err { error := "Drug '" ++ drug ++ "' not found in CPIC rules."
             available_drugs := get_available_drugs rules } := by
  simp only [assess_drug_risk, h]

lemma assess_eq_ok (rules : RuleTable) (drug : String) (profile : GenomicProfile)
    (dr : DrugRule) (h : lookup rules (strUpper drug) = some dr) :
    assess_drug_risk rules drug profile =
      .ok { drug := strUpper drug
            risk_assessment :=
              { risk_label :=
                  (resolveRule dr.phenotype_rules
                    ((lookup profile dr.primary_gene).getD defaultGeneCall).phenotype
                    drug).risk_label
                severity :=
                  (resolveRule dr.phenotype_rules
                    ((lookup profile dr.primary_gene).getD defaultGeneCall).phenotype
                    drug).severity
                confidence :=
                  confidenceFor
                    (resolveRule dr.phenotype_rules
                      ((lookup profile dr.primary_gene).getD defaultGeneCall).phenotype
                      drug).severity
                evidence_level :=
                  evidenceFor
                    (resolveRule dr.phenotype_rules
                      ((lookup profile dr.primary_gene).getD defaultGeneCall).phenotype
                      drug).severity }
            pharmacogenomic_profile :=
              { primary_gene := dr.primary_gene
                diplotype :=
                  ((lookup profile dr.primary_gene).getD defaultGeneCall).diplotype
                phenotype :=
                  ((lookup profile dr.primary_gene).getD defaultGeneCall).phenotype
                activity_score :=
                  ((lookup profile dr.primary_gene).getD defaultGeneCall).activity_score
                detected_variants :=
                  (((lookup profile dr.primary_gene).getD
                    defaultGeneCall).detected_variants).map formatVariant
                variants_count :=
                  ((((lookup profile dr.primary_gene).getD
                    defaultGeneCall).detected_variants).map formatVariant).length }
            clinical_recommendation :=
              { recommendation :=
                  (resolveRule dr.phenotype_rules
                    ((lookup profile dr.primary_gene).getD defaultGeneCall).phenotype
                    drug).recommendation
                guideline_source := "CPIC"
                drug := strUpper drug
                gene := dr.primary_gene } } := by
  simp only [assess_drug_risk, h]

lemma confidenceFor_cases (s : String) :
    confidenceFor s = 95/100 ∨ confidenceFor s = 90/100 ∨ confidenceFor s = 85/100 ∨
    confidenceFor s = 70/100 ∨ confidenceFor s = 75/100 := by
  by_cases h1 : ("critical" == s) = true <;>
    by_cases h2 : ("high" == s) = true <;>
    by_cases h3 : ("moderate" == s) = true <;>
    by_cases h4 : ("low" == s) = true <;>
    by_cases h5 : ("none" == s) = true <;>
    simp [confidenceFor, lookup, CONFIDENCE_LEVELS, List.find?, h1, h2, h3, h4, h5]

lemma severityWeight_cases (s : String) :
    severityWeight s = 4 ∨ severityWeight s = 3 ∨ severityWeight s = 2 ∨
    severityWeight s = 1 ∨ severityWeight s = 0 := by
  by_cases h1 : ("critical" == s) = true <;>
    by_cases h2 : ("high" == s) = true <;>
    by_cases h3 : ("moderate" == s) = true <;>
    by_cases h4 : ("low" == s) = true <;>
    by_cases h5 : ("none" == s) = true <;>
    simp [severityWeight, lookup, SEVERITY_WEIGHTS, List.find?, h1, h2, h3, h4, h5]

lemma severityWeight_natCast (s : String) : ∃ n : ℕ, severityWeight s = (n : ℚ) := by
  rcases severityWeight_cases s with h | h | h | h | h
  · exact ⟨4, by rw [h]; norm_num⟩
  · exact ⟨3, by rw [h]; norm_num⟩
  · exact ⟨2, by rw [h]; norm_num⟩
  · exact ⟨1, by rw [h]; norm_num⟩
  · exact ⟨0, by rw [h]; norm_num⟩

lemma roundHalfEven_natCast (n : ℕ) : roundHalfEven (n : ℚ) = (n : ℤ) := by
  unfold roundHalfEven
  norm_num

lemma round2_natCast (n : ℕ) : round2 (n : ℚ) = (n : ℚ) := by
  unfold round2
  have h : ((n : ℚ) * 100) = ((n * 100 : ℕ) : ℚ) := by push_cast; ring
  rw [h, roundHalfEven_natCast]
  push_cast
  field_simp

lemma round3_zero : round3 0 = 0 := by
  unfold round3 roundHalfEven
  norm_num

lemma maxSeverityWeight_eq : maxSeverityWeight = 4 := by
  norm_num [maxSeverityWeight, SEVERITY_WEIGHTS, max_def]

lemma normalized_aux (rules : RuleTable) (profile : GenomicProfile)
    (drugs : List String) :
    (let gb := (drugs.foldl (pbsStep rules profile) ([], [])).1
     let total : ℚ := (gb.map (fun p => p.2.max_severity_weight)).sum
     let max_possible : ℚ :=
       if gb.isEmpty then 1 else (gb.length : ℚ) * maxSeverityWeight
     if max_possible > 0 then round3 (total / max_possible) else 0) =
      if (drugs.foldl (pbsStep rules profile) ([], [])).1 = [] then 0
      else round3
        ((((drugs.foldl (pbsStep rules profile) ([], [])).1).map
            (fun p => p.2.max_severity_weight)).sum /
         ((((drugs.foldl (pbsStep rules profile) ([], [])).1).length : ℚ) * 4)) := by
  cases hgb : (drugs.foldl (pbsStep rules profile) ([], [])).1 with
  | nil => simp [round3_zero]
  | cons p rest =>
    have hpos : (0 : ℚ) < (((p :: rest).length : ℚ)) * maxSeverityWeight := by
      rw [maxSeverityWeight_eq]
      have : (0 : ℚ) < ((p :: rest).length : ℚ) := by
        exact_mod_cast Nat.succ_pos rest.length
      nlinarith
    simp only [List.isEmpty_cons, if_false, Bool.false_eq_true, maxSeverityWeight_eq]
    rw [if_pos (by rw [← maxSeverityWeight_eq]; exact hpos)]
    simp [maxSeverityWeight_eq]

lemma listMax0_append (l : List ℚ) (x : ℚ) :
    listMax0 (l ++ [x]) = max (listMax0 l) x := by
  simp [listMax0, List.foldl_append]

lemma ite_gt_eq_max (m w : ℚ) : (if w > m then w else m) = max m w := by
  rcases le_or_lt w m with h | h
  · rw [if_neg (not_lt.mpr h), max_eq_left h]
  · rw [if_pos h, max_eq_right h.le]

lemma GBInv_nil : GBInv [] := by
  intro p hp
  cases hp

lemma GBInv_append_new (l : List (String × GeneBurden)) (g ph : String) (as : ℚ)
    (h : GBInv l) :
    GBInv (l ++ [(g, { phenotype := ph, activity_score := as,
                       max_severity_weight := 0, affected_drugs := [] })]) := by
  intro p hp
  rcases List.mem_append.mp hp with h1 | h1
  · exact h p h1
  · rw [List.mem_singleton.mp h1]
    refine ⟨⟨0, by norm_num⟩, by simp [listMax0], ?_⟩
    intro ad had
    cases had

lemma GBInv_bump (l : List (String × GeneBurden)) (k drug : String) (pr : PhenoRule)
    (h : GBInv l) :
    GBInv (updateEntry l k (fun g => bumpGene g drug pr (severityWeight pr.severity))) := by
  intro p hp
  rcases List.mem_map.mp hp with ⟨q, hq, hpq⟩
  obtain ⟨⟨n, hn⟩, hmax, hw⟩ := h q hq
  by_cases hk : (q.1 == k) = true
  · rw [if_pos hk] at hpq
    rw [← hpq]
    refine ⟨?_, ?_, ?_⟩
    · obtain ⟨nw, hnw⟩ := severityWeight_natCast pr.severity
      refine ⟨max n nw, ?_⟩
      simp only [bumpGene]
      rw [ite_gt_eq_max, hn, hnw, ← Nat.cast_max]
    · simp only [bumpGene, List.map_append, List.map_cons, List.map_nil]
      rw [listMax0_append, ite_gt_eq_max, hmax]
    · intro ad had
      simp only [bumpGene, List.mem_append, List.mem_singleton] at had
      rcases had with h1 | h1
      · exact hw ad h1
      · rw [h1]
  · rw [if_neg hk] at hpq
    rw [← hpq]
    exact ⟨⟨n, hn⟩, hmax, hw⟩

lemma GBInv_pbsStep (rules : RuleTable) (profile : GenomicProfile)
    (st : List (String × GeneBurden) × List HighRiskPair) (drug : String)
    (h : GBInv st.1) : GBInv (pbsStep rules profile st drug).1 := by
  cases hl : lookup rules drug with
  | none => simpa [pbsStep, hl] using h
  | some dr =>
    cases hp : lookup dr.phenotype_rules
        ((lookup profile dr.primary_gene).getD defaultGeneCall).phenotype with
    | none => simpa [pbsStep, hl, hp] using h
    | some pr =>
      simp only [pbsStep, hl, hp]
      by_cases hs : (lookup st.1 dr.primary_gene).isSome = true
      · simp only [hs, if_true]
        exact GBInv_bump _ _ _ _ h
      · simp only [hs, if_false, Bool.false_eq_true]
        exact GBInv_bump _ _ _ _ (GBInv_append_new _ _ _ _ h)

lemma GBInv_foldl (rules : RuleTable) (profile : GenomicProfile) (ds : List String)
    (st : List (String × GeneBurden) × List HighRiskPair) (h : GBInv st.1) :
    GBInv ((ds.foldl (pbsStep rules profile) st).1) := by
  induction ds generalizing st with
  | nil => exact h
  | cons d rest ih => exact ih _ (GBInv_pbsStep rules profile st d h)

lemma sum_natCast_of_GBInv (l : List (String × GeneBurden)) (h : GBInv l) :
    ∃ n : ℕ, (l.map (fun p => p.2.max_severity_weight)).sum = (n : ℚ) := by
  induction l with
  | nil => exact ⟨0, by simp⟩
  | cons p rest ih =>
    obtain ⟨n, hn⟩ := ih (fun q hq => h q (List.mem_cons_of_mem _ hq))
    obtain ⟨⟨m, hm⟩, -, -⟩ := h p (List.mem_cons_self _ _)
    refine ⟨m + n, ?_⟩
    simp only [List.map_cons, List.sum_cons, hm, hn]
    push_cast
    ring

lemma c5_aux (rules : RuleTable) (profile : GenomicProfile) (drugs : List String) :
    round2 ((((drugs.foldl (pbsStep rules profile) ([], [])).1).map
        (fun p => p.2.max_severity_weight)).sum) =
      (((drugs.foldl (pbsStep rules profile) ([], [])).1).map
        (fun p => p.2.max_severity_weight)).sum ∧
    ∀ p ∈ (drugs.foldl (pbsStep rules profile) ([], [])).1,
      p.2.max_severity_weight =
        listMax0 (p.2.affected_drugs.map (fun ad => severityWeight ad.severity)) := by
  have hinv := GBInv_foldl rules profile drugs ([], []) GBInv_nil
  constructor
  · obtain ⟨n, hn⟩ := sum_natCast_of_GBInv _ hinv
    rw [hn, round2_natCast]
  · intro p hp
    exact (hinv p hp).2.1

lemma assess_confidence_lookup (rules : RuleTable) (drug : String)
    (profile : GenomicProfile) (a : Assessment)
    (h : assess_drug_risk rules drug profile = .ok a) :
    a.risk_assessment.confidence = confidenceFor a.risk_assessment.severity := by
  cases hl : lookup rules (strUpper drug) with
  | none => rw [assess_eq_err rules drug profile hl] at h; cases h
  | some dr =>
    rw [assess_eq_ok rules drug profile dr hl] at h
    cases h
    rfl

lemma confidenceFor_bounds (s : String) :
    40/100 ≤ confidenceFor s ∧ confidenceFor s ≤ 99/100 := by
  rcases confidenceFor_cases s with h | h | h | h | h <;> rw [h] <;> norm_num

lemma lookup_cf_profile (starDefs : List (String × String)) (g tp : String)
    (profile : GenomicProfile) :
    lookup (counterfactual_profile starDefs g tp profile) g =
      (lookup profile g).map (fun data =>
        { data with
          phenotype := tp
          activity_score := phenotypeActivity tp
          diplotype :=
            if tp = "NM" then
              ((lookup starDefs g).getD "*1") ++ "/" ++ ((lookup starDefs g).getD "*1")
            else data.diplotype }) := by
  induction profile with
  | nil => rfl
  | cons p rest ih =>
    rcases p with ⟨k, v⟩
    by_cases hk : (k == g) = true
    · have hg : k = g := by simpa using hk
      subst hg
      simp [counterfactual_profile, lookup, List.find?, hk]
    · simp only [counterfactual_profile, List.map_cons, hk, if_false, Bool.false_eq_true]
      simp only [counterfactual_profile] at ih
      simp [lookup, List.find?, hk] at ih ⊢
      exact ih

lemma cf_profile_id (starDefs : List (String × String)) (g tp : String)
    (profile : GenomicProfile) (hg : lookup profile g = none) :
    counterfactual_profile starDefs g tp profile = profile := by
  induction profile with
  | nil => rfl
  | cons p rest ih =>
    rw [lookup_eq_none_iff] at hg
    simp only [keysOf, List.map_cons, List.mem_cons, not_or] at hg
    obtain ⟨h1, h2⟩ := hg
    have hk : (p.1 == g) = false := by
      simp only [beq_eq_false_iff_ne, ne_eq]
      exact fun e => h1 e.symm
    simp only [counterfactual_profile, List.map_cons, hk, if_false, Bool.false_eq_true]
    have hrest : lookup rest g = none := by
      rw [lookup_eq_none_iff]
      simpa [keysOf] using h2
    simp only [counterfactual_profile] at ih
    rw [ih hrest]

lemma cf_eq_ok (rules : RuleTable) (starDefs : List (String × String))
    (drug : String) (profile : GenomicProfile) (tp : String) (dr : DrugRule)
    (h : lookup rules (strUpper drug) = some dr) :
    counterfactual_simulation rules starDefs drug profile tp = .ok
      { drug := strUpper drug
        primary_gene := dr.primary_gene
        actual_phenotype := phenotypeOf (assess_drug_risk rules drug profile)
        actual_risk_assessment := riskBlockOf (assess_drug_risk rules drug profile)
        actual_recommendation := recommendationOf (assess_drug_risk rules drug profile)
        simulated_phenotype := tp
        counterfactual_risk_assessment :=
          riskBlockOf (assess_drug_risk rules drug
            (counterfactual_profile starDefs dr.primary_gene tp profile))
        counterfactual_recommendation :=
          recommendationOf (assess_drug_risk rules drug
            (counterfactual_profile starDefs dr.primary_gene tp profile))
        risk_changed :=
          riskLabelOf (assess_drug_risk rules drug profile) !=
            riskLabelOf (assess_drug_risk rules drug
              (counterfactual_profile starDefs dr.primary_gene tp profile)) } := by
  simp only [counterfactual_simulation, h]

/-! ### Claims -/

/-- C1 (counterexample): on a known drug whose resolved rule has severity
"moderate", with zero detected variants, activity score 2.0 and no quality
issues, the engine returns confidence 0.85 — the static severity-table
value — not the 0.55 the claim requires. -/
theorem c1_counterexample :
    (∃ a, assess_drug_risk exRules "WARFARIN" exProfile = .ok a ∧
       a.pharmacogenomic_profile.detected_variants = [] ∧
       a.pharmacogenomic_profile.activity_score = 2 ∧
       a.risk_assessment.severity = "moderate" ∧
       a.risk_assessment.confidence = 85/100) ∧
    (85/100 : ℚ) ≠ 55/100 := by
  constructor
  · exact ⟨exAssessment, rfl, rfl, rfl, rfl, rfl⟩
  · norm_num

/-- C1 (amended): the confidence of every successful risk assessment is
looked up from the resolved rule's severity in the static
`CONFIDENCE_LEVELS` table (default 0.75), never computed from the
evidence inputs; in particular it is 0.85, not 0.55, for a zero-variant
activity-2.0 call whose rule severity is "moderate". -/
theorem c1_theorem (rules : RuleTable) (drug : String) (profile : GenomicProfile)
    (a : Assessment) (h : assess_drug_risk rules drug profile = .ok a) :
    a.risk_assessment.confidence = confidenceFor a.risk_assessment.severity :=
  assess_confidence_lookup rules drug profile a h

/-- C1 witness: the amended claim applied to the concrete WARFARIN
assessment. -/
theorem c1_witness :
    exAssessment.risk_assessment.confidence =
      confidenceFor exAssessment.risk_assessment.severity :=
  c1_theorem exRules "WARFARIN" exProfile exAssessment rfl

/-- C6: the confidence of every successful risk assessment lies in
[0.40, 0.99]. -/
theorem c6_theorem (rules : RuleTable) (drug : String) (profile : GenomicProfile)
    (a : Assessment) (h : assess_drug_risk rules drug profile = .ok a) :
    40/100 ≤ a.risk_assessment.confidence ∧ a.risk_assessment.confidence ≤ 99/100 := by
  rw [assess_confidence_lookup rules drug profile a h]
  exact confidenceFor_bounds _

/-- C6 witness: the bounds at the concrete WARFARIN assessment. -/
theorem c6_witness :
    40/100 ≤ exAssessment.risk_assessment.confidence ∧
    exAssessment.risk_assessment.confidence ≤ 99/100 :=
  c6_theorem exRules "WARFARIN" exProfile exAssessment rfl

/-- C7: an unknown drug yields the structured not-found result whose
`available_drugs` lists exactly the known drugs (no raised fault — the
function is total on this branch); a known drug yields an assessment with
no error field. -/
theorem c7_theorem (rules : RuleTable) (drug : String) (profile : GenomicProfile) :
    (lookup rules (strUpper drug) = none →
      ∃ e, assess_drug_risk rules drug profile = .err e ∧
        ∀ d, d ∈ e.available_drugs ↔ d ∈ keysOf rules) ∧
    (∀ dr, lookup rules (strUpper drug) = some dr →
      ∃ a, assess_drug_risk rules drug profile = .ok a) := by
  constructor
  · intro h
    refine ⟨_, assess_eq_err rules drug profile h, ?_⟩
    intro d
    simpa [get_available_drugs] using mem_sortStrings (x := d) (l := keysOf rules)
  · intro dr h
    exact ⟨_, assess_eq_ok rules drug profile dr h⟩

/-- C7 witness: unknown drug "FOO" gives the structured not-found result;
known drug "WARFARIN" gives a successful assessment. -/
theorem c7_witness :
    (∃ e, assess_drug_risk exRules "FOO" exProfile = .err e ∧
       ∀ d, d ∈ e.available_drugs ↔ d ∈ keysOf exRules) ∧
    (∃ a, assess_drug_risk exRules "WARFARIN" exProfile = .ok a) :=
  ⟨(c7_theorem exRules "FOO" exProfile).1 rfl,
   (c7_theorem exRules "WARFARIN" exProfile).2 warfarinRule rfl⟩

/-- C8: a known drug whose primary gene is absent from the profile is
assessed successfully with the normal-metabolizer defaults: phenotype
"NM", diplotype "*1/*1", activity score 2.0, no detected variants. -/
theorem c8_theorem (rules : RuleTable) (drug : String) (profile : GenomicProfile)
    (dr : DrugRule) (h : lookup rules (strUpper drug) = some dr)
    (hg : lookup profile dr.primary_gene = none) :
    ∃ a, assess_drug_risk rules drug profile = .ok a ∧
      a.pharmacogenomic_profile.phenotype = "NM" ∧
      a.pharmacogenomic_profile.diplotype = "*1/*1" ∧
      a.pharmacogenomic_profile.activity_score = 2 ∧
      a.pharmacogenomic_profile.detected_variants = [] := by
  refine ⟨_, assess_eq_ok rules drug profile dr h, ?_, ?_, ?_, ?_⟩ <;>
    simp [hg, defaultGeneCall]

/-- C8 witness: WARFARIN against the empty profile (CYP2C9 absent). -/
theorem c8_witness :
    ∃ a, assess_drug_risk exRules "WARFARIN" [] = .ok a ∧
      a.pharmacogenomic_profile.phenotype = "NM" ∧
      a.pharmacogenomic_profile.diplotype = "*1/*1" ∧
      a.pharmacogenomic_profile.activity_score = 2 ∧
      a.pharmacogenomic_profile.detected_variants = [] :=
  c8_theorem exRules "WARFARIN" [] warfarinRule rfl rfl

/-- C2 (counterexample): a batch of 21 drugs is not rejected: the engine
assesses all 21 and returns 21 entries, one per drug. -/
theorem c2_counterexample :
    drugs21.length = 21 ∧
    (batch_drug_assessment exRules [] (some drugs21)).total_drugs_assessed = 21 ∧
    keysOf (batch_drug_assessment exRules [] (some drugs21)).drug_assessments = drugs21 :=
  ⟨rfl, rfl, rfl⟩

/-- C2 (amended): the batch assessment never rejects a drug list for its
length: even when the list exceeds 20, every listed drug is assessed and
appears (upper-cased) in the output map. -/
theorem c2_theorem (rules : RuleTable) (profile : GenomicProfile)
    (ds : List String) (h : 20 < ds.length) (d : String) (hd : d ∈ ds) :
    strUpper d ∈ keysOf (batch_drug_assessment rules profile (some ds)).drug_assessments := by
  have hmem : strUpper d ∈ ds.map strUpper := List.mem_map_of_mem _ hd
  show strUpper d ∈ keysOf ((ds.map strUpper).foldl
      (fun acc x => pyDictInsert acc x (assess_drug_risk rules x profile)) [])
  exact (mem_keysOf_batchFold (fun x => assess_drug_risk rules x profile) _ _ _).mpr
    (Or.inr hmem)

/-- C2 witness: drug "D7" of the 21-drug batch is assessed. -/
theorem c2_witness :
    20 < drugs21.length ∧ "D7" ∈ drugs21 ∧
    strUpper "D7" ∈ keysOf (batch_drug_assessment exRules [] (some drugs21)).drug_assessments :=
  ⟨by decide, by decide, c2_theorem exRules [] drugs21 (by decide) "D7" (by decide)⟩

/-- C4: every drug of a batch request appears (upper-cased) in exactly one
of the two output partitions: the successful entries or the error entries. -/
theorem c4_theorem (rules : RuleTable) (profile : GenomicProfile)
    (ds : List String) (d : String) (hd : d ∈ ds) :
    (strUpper d ∈ keysOf (batchResults (batch_drug_assessment rules profile (some ds))) ∧
     strUpper d ∉ keysOf (batchErrors (batch_drug_assessment rules profile (some ds)))) ∨
    (strUpper d ∉ keysOf (batchResults (batch_drug_assessment rules profile (some ds))) ∧
     strUpper d ∈ keysOf (batchErrors (batch_drug_assessment rules profile (some ds)))) := by
  simp only [batchResults, batchErrors]
  have hL : (batch_drug_assessment rules profile (some ds)).drug_assessments =
      (ds.map strUpper).foldl
        (fun acc x => pyDictInsert acc x (assess_drug_risk rules x profile)) [] := rfl
  have hkey : strUpper d ∈ keysOf (batch_drug_assessment rules profile (some ds)).drug_assessments := by
    rw [hL]
    exact (mem_keysOf_batchFold (fun x => assess_drug_risk rules x profile) _ _ _).mpr
      (Or.inr (List.mem_map_of_mem _ hd))
  have hnodup : (keysOf (batch_drug_assessment rules profile (some ds)).drug_assessments).Nodup := by
    rw [hL]
    exact nodup_keysOf_batchFold _ _ [] (by simp [keysOf])
  obtain ⟨v, hv⟩ := mem_keysOf.mp hkey
  by_cases hval : isErrResult v = true
  · right
    constructor
    · intro hmem
      obtain ⟨w, hw⟩ := mem_keysOf.mp hmem
      have hwL : (strUpper d, w) ∈ (batch_drug_assessment rules profile (some ds)).drug_assessments :=
        List.mem_of_mem_filter hw
      have hwv : w = v := eq_of_mem_of_nodup_keys hnodup hwL hv
      have hpred := List.of_mem_filter hw
      rw [hwv] at hpred
      simp [hval] at hpred
    · exact mem_keysOf.mpr ⟨v, List.mem_filter.mpr ⟨hv, hval⟩⟩
  · left
    constructor
    · exact mem_keysOf.mpr ⟨v, List.mem_filter.mpr ⟨hv, by simp [hval]⟩⟩
    · intro hmem
      obtain ⟨w, hw⟩ := mem_keysOf.mp hmem
      have hwL : (strUpper d, w) ∈ (batch_drug_assessment rules profile (some ds)).drug_assessments :=
        List.mem_of_mem_filter hw
      have hwv : w = v := eq_of_mem_of_nodup_keys hnodup hwL hv
      have hpred := List.of_mem_filter hw
      rw [hwv] at hpred
      simp [hval] at hpred

/-- C4 witness: a batch of one known drug ("warfarin") and one unknown
drug ("FOO") puts each in exactly one partition, with exactly one entry
in the successful list and one in the error list. -/
theorem c4_witness :
    "warfarin" ∈ ["warfarin", "FOO"] ∧
    ((strUpper "warfarin" ∈
        keysOf (batchResults (batch_drug_assessment exRules exProfile (some ["warfarin", "FOO"]))) ∧
      strUpper "warfarin" ∉
        keysOf (batchErrors (batch_drug_assessment exRules exProfile (some ["warfarin", "FOO"])))) ∨
     (strUpper "warfarin" ∉
        keysOf (batchResults (batch_drug_assessment exRules exProfile (some ["warfarin", "FOO"]))) ∧
      strUpper "warfarin" ∈
        keysOf (batchErrors (batch_drug_assessment exRules exProfile (some ["warfarin", "FOO"]))))) ∧
    (batchResults (batch_drug_assessment exRules exProfile (some ["warfarin", "FOO"]))).length = 1 ∧
    (batchErrors (batch_drug_assessment exRules exProfile (some ["warfarin", "FOO"]))).length = 1 :=
  ⟨by decide,
   c4_theorem exRules exProfile ["warfarin", "FOO"] "warfarin" (by decide),
   rfl, rfl⟩

/-- C3 (counterexample): with one gene of burden 3 and a second evaluated
gene of burden 0, the engine's normalized score is `round3(3/(2×4)) =
0.375`, while the claim's formula (divisor = nonzero-burden genes × 4)
gives `round3(3/(1×4)) = 0.75`: zero-weight genes do enlarge the divisor. -/
theorem c3_counterexample :
    (compute_pharmacogenomic_burden_score exRulesTwoGenes [] none).pharmacogenomic_burden_score
        = 3 ∧
    (compute_pharmacogenomic_burden_score exRulesTwoGenes [] none).total_genes_affected = 1 ∧
    (compute_pharmacogenomic_burden_score exRulesTwoGenes [] none).normalized_pbs = 3/8 ∧
    (3/8 : ℚ) ≠ round3 (3 / ((1 : ℚ) * 4)) := by
  refine ⟨?_, ?_, ?_, ?_⟩
  · simp [compute_pharmacogenomic_burden_score, pbsStep, lookup, keysOf, defaultGeneCall,
      updateEntry, bumpGene, severityWeight, SEVERITY_WEIGHTS, maxSeverityWeight,
      List.find?, List.foldl]
    norm_num [round2, roundHalfEven]
  · simp [compute_pharmacogenomic_burden_score, pbsStep, lookup, keysOf, defaultGeneCall,
      updateEntry, bumpGene, severityWeight, SEVERITY_WEIGHTS, maxSeverityWeight,
      List.find?, List.foldl, List.filter]
  · simp [compute_pharmacogenomic_burden_score, pbsStep, lookup, keysOf, defaultGeneCall,
      updateEntry, bumpGene, severityWeight, SEVERITY_WEIGHTS, maxSeverityWeight,
      List.find?, List.foldl]
    norm_num [round3, roundHalfEven]
  · norm_num [round3, roundHalfEven]

/-- C3 (amended): the normalized score equals `total_score` divided by
(number of genes in `gene_burdens` × 4) rounded to 3 decimals — the
divisor counts every evaluated gene, including genes whose maximum
severity weight is 0 — and equals 0 when no gene was evaluated. -/
theorem c3_theorem (rules : RuleTable) (profile : GenomicProfile)
    (ds? : Option (List String)) :
    (compute_pharmacogenomic_burden_score rules profile ds?).normalized_pbs =
      if (compute_pharmacogenomic_burden_score rules profile ds?).gene_burdens = [] then 0
      else round3
        (((compute_pharmacogenomic_burden_score rules profile ds?).gene_burdens.map
            (fun p => p.2.max_severity_weight)).sum /
         (((compute_pharmacogenomic_burden_score rules profile ds?).gene_burdens.length : ℚ)
            * 4)) := by
  rcases ds? with _ | ds
  · exact normalized_aux rules profile (keysOf rules)
  · exact normalized_aux rules profile (ds.map strUpper)

/-- C5: the burden report's total score equals the sum over the affected
genes of that gene's maximum severity weight across its evaluated drugs
(each drug contributing `severityWeight` of its rule's severity). -/
theorem c5_theorem (rules : RuleTable) (profile : GenomicProfile)
    (ds? : Option (List String)) :
    (compute_pharmacogenomic_burden_score rules profile ds?).pharmacogenomic_burden_score =
      (((compute_pharmacogenomic_burden_score rules profile ds?).gene_burdens).map
        (fun p => p.2.max_severity_weight)).sum ∧
    ∀ p ∈ (compute_pharmacogenomic_burden_score rules profile ds?).gene_burdens,
      p.2.max_severity_weight =
        listMax0 (p.2.affected_drugs.map (fun ad => severityWeight ad.severity)) := by
  rcases ds? with _ | ds
  · exact c5_aux rules profile (keysOf rules)
  · exact c5_aux rules profile (ds.map strUpper)

/-- C5 witness: two drugs sharing gene G1, severities "high" and "low",
give that gene one burden entry whose maximum weight 3 is counted once:
the per-gene weights are `[3]` and the total is their sum. -/
theorem c5_witness :
    (∀ p ∈ (compute_pharmacogenomic_burden_score exRulesSharedGene [] none).gene_burdens,
       p.2.max_severity_weight =
         listMax0 (p.2.affected_drugs.map (fun ad => severityWeight ad.severity))) ∧
    ((compute_pharmacogenomic_burden_score exRulesSharedGene [] none).gene_burdens.map
       (fun p => p.2.max_severity_weight)) = [3] ∧
    (compute_pharmacogenomic_burden_score exRulesSharedGene [] none).pharmacogenomic_burden_score =
      (((compute_pharmacogenomic_burden_score exRulesSharedGene [] none).gene_burdens).map
        (fun p => p.2.max_severity_weight)).sum :=
  ⟨(c5_theorem exRulesSharedGene [] none).2,
   by simp [compute_pharmacogenomic_burden_score, pbsStep, lookup, keysOf, defaultGeneCall,
        updateEntry, bumpGene, severityWeight, SEVERITY_WEIGHTS, List.find?, List.foldl],
   (c5_theorem exRulesSharedGene [] none).1⟩

/-- C9: when the simulated target phenotype equals the phenotype reported
by the actual assessment, the counterfactual report has
`risk_changed = false` and the actual and counterfactual risk labels
coincide. -/
theorem c9_theorem (rules : RuleTable) (starDefs : List (String × String))
    (drug : String) (profile : GenomicProfile) (tp : String) (r : CFReport)
    (h : counterfactual_simulation rules starDefs drug profile tp = .ok r)
    (ht : r.actual_phenotype = some tp) :
    r.risk_changed = false ∧
    r.actual_risk_assessment.map (fun b => b.risk_label) =
      r.counterfactual_risk_assessment.map (fun b => b.risk_label) := by
  cases hl : lookup rules (strUpper drug) with
  | none => simp [counterfactual_simulation, hl] at h
  | some dr =>
    rw [cf_eq_ok rules starDefs drug profile tp dr hl] at h
    cases h
    have h1 := assess_eq_ok rules drug profile dr hl
    have h2 := assess_eq_ok rules drug
      (counterfactual_profile starDefs dr.primary_gene tp profile) dr hl
    rw [h1] at ht
    simp only [phenotypeOf] at ht
    have hph : ((lookup profile dr.primary_gene).getD defaultGeneCall).phenotype = tp :=
      Option.some.inj ht
    have hcf :
        ((lookup (counterfactual_profile starDefs dr.primary_gene tp profile)
          dr.primary_gene).getD defaultGeneCall).phenotype = tp := by
      rw [lookup_cf_profile starDefs dr.primary_gene tp profile]
      cases hp : lookup profile dr.primary_gene with
      | none =>
        rw [hp] at hph
        simpa [defaultGeneCall] using hph
      | some v => rfl
    constructor
    · simp only [riskLabelOf, h1, h2, hph, hcf]
      exact bne_self_eq_false _
    · simp only [riskBlockOf, h1, h2, Option.map_some', hph, hcf]

/-- C9 witness: simulating "NM" for a patient whose reported phenotype is
already "NM" leaves the risk unchanged. -/
theorem c9_witness :
    exCFReport.risk_changed = false ∧
    exCFReport.actual_risk_assessment.map (fun b => b.risk_label) =
      exCFReport.counterfactual_risk_assessment.map (fun b => b.risk_label) :=
  c9_theorem exRules [] "WARFARIN" [] "NM" exCFReport rfl rfl

/-- C10: when the drug's primary gene is absent from the profile, the
derived counterfactual profile equals the original profile, and the
simulation reports `risk_changed = false` for every target phenotype. -/
theorem c10_theorem (rules : RuleTable) (starDefs : List (String × String))
    (drug : String) (profile : GenomicProfile) (tp : String) (dr : DrugRule)
    (h : lookup rules (strUpper drug) = some dr)
    (hg : lookup profile dr.primary_gene = none) :
    counterfactual_profile starDefs dr.primary_gene tp profile = profile ∧
    ∃ r, counterfactual_simulation rules starDefs drug profile tp = .ok r ∧
      r.risk_changed = false := by
  have hid := cf_profile_id starDefs dr.primary_gene tp profile hg
  refine ⟨hid, ?_⟩
  refine ⟨_, cf_eq_ok rules starDefs drug profile tp dr h, ?_⟩
  show (riskLabelOf (assess_drug_risk rules drug profile) !=
      riskLabelOf (assess_drug_risk rules drug
        (counterfactual_profile starDefs dr.primary_gene tp profile))) = false
  rw [hid]
  exact bne_self_eq_false _

/-- C10 witness: WARFARIN against the empty profile with target "PM": the
derived profile is unchanged and the risk does not change. -/
theorem c10_witness :
    counterfactual_profile [] warfarinRule.primary_gene "PM" [] = [] ∧
    ∃ r, counterfactual_simulation exRules [] "WARFARIN" [] "PM" = .ok r ∧
      r.risk_changed = false :=
  c10_theorem exRules [] "WARFARIN" [] "PM" warfarinRule rfl rfl

end PWHack
